import Mathlib

/-!
Shallow embedding of `python-agents/websocket_client.py` from the
konv-agent-v2 repository (class `WebSocketClient`).

Modelling conventions:
* Python dicts used as JSON messages become association lists
  `List (String × Json)` with Python assignment semantics (replace the
  existing key in place, otherwise append at the end).
* The external `websockets` library, `uuid.uuid4()`, `datetime.now()` and
  `json.loads` are modelled by an environment `Env` of oracles: whether the
  transport connect / each `connection.send` / `connection.close` succeeds
  or raises, the stream of fresh uuid strings, the stream of clock
  readings, and the partial JSON-parsing function.
* Mutable object state (`self.connection`, `self.is_connected`,
  `self.message_handlers`, plus the observable effects on the transport)
  becomes an explicit `World` threaded through each method.  A Python
  method that "never raises to the caller" is a total Lean function; the
  raising primitives return failure through the oracle and the embedded
  `try/except` structure converts them exactly as the source does.
* `connection.send(json.dumps(message))` appends the message (in parsed
  form; `json.dumps` is injective on our value model) to `sentLog` when
  the oracle says the write succeeds, and appends nothing when it raises.
* Handler callbacks are opaque: they are identified by a `Nat` and an
  invocation is recorded in `handlerLog` together with the parsed message
  passed to the callback.
-/

namespace WSClient

/-- JSON values, the wire data model of the client. -/
inductive Json where
  | null
  | bool (b : Bool)
  | num (n : Int)
  | str (s : String)
  | arr (elems : List Json)
  | obj (fields : List (String × Json))

/-- A Python dict holding a JSON object: ordered association list. -/
abbrev Dict := List (String × Json)

/-- `k in d` for a Python dict. -/
def hasKey (d : List (String × α)) (k : String) : Bool :=
  d.any (fun p => p.1 == k)

/-- `d.get(k)` / `d[k]` lookup for a Python dict. -/
def get? (d : List (String × α)) (k : String) : Option α :=
  (d.find? (fun p => p.1 == k)).map (fun p => p.2)

/-- `d[k] = v` for a Python dict: replace in place if the key exists,
otherwise append at the end (insertion order preserved). -/
def setKey (d : List (String × α)) (k : String) (v : α) : List (String × α) :=
  if hasKey d k then
    d.map (fun p => if p.1 == k then (k, v) else p)
  else
    d ++ [(k, v)]

/-- The constructor-held fields and mutable attributes of a
`WebSocketClient` instance (`__init__`, lines 22–37). -/
structure Client where
  uri : String
  api_key : String
  agent_id : String
  agent_type : String
  /-- `self.connection`: `none` models Python `None`; a `some h` is an
  opaque transport handle. -/
  connection : Option Nat
  /-- `self.is_connected`. -/
  is_connected : Bool
  /-- `self.message_handlers`: message-type string → opaque handler id. -/
  message_handlers : List (String × Nat)
deriving Repr, DecidableEq

/-- `WebSocketClient(uri, api_key, agent_id, agent_type)`. -/
def Client.init (uri api_key agent_id agent_type : String) : Client :=
  { uri := uri, api_key := api_key, agent_id := agent_id,
    agent_type := agent_type, connection := none, is_connected := false,
    message_handlers := [] }

/-- Oracles for the external world: the `websockets` transport,
`uuid.uuid4()`, `datetime.now().isoformat()` and `json.loads`. -/
structure Env where
  /-- Does `websockets.connect(self.uri, ...)` succeed (or raise)? -/
  connectOk : Bool
  /-- The handle returned by a successful `websockets.connect`. -/
  newHandle : Nat
  /-- Does the k‑th `connection.send` call of the run succeed (or raise)? -/
  sendOk : Nat → Bool
  /-- Does `connection.close()` succeed (or raise)? -/
  closeOk : Bool
  /-- The stream of fresh tokens produced by `uuid.uuid4()`. -/
  uuid : Nat → String
  /-- The stream of readings of `datetime.now().isoformat()`. -/
  now : Nat → String
  /-- `json.loads`: `none` models a raised `json.JSONDecodeError`. -/
  jsonLoads : String → Option Json

/-- The mutable state threaded through the methods: the client object plus
the observable effects on the outside world. -/
structure World where
  client : Client
  /-- How many `uuid.uuid4()` calls have happened (indexes `Env.uuid`). -/
  uuidCtr : Nat
  /-- How many `datetime.now()` calls have happened (indexes `Env.now`). -/
  clock : Nat
  /-- How many `connection.send` calls have happened (indexes `Env.sendOk`). -/
  sendAttempts : Nat
  /-- Messages successfully written to the transport, oldest first. -/
  sentLog : List Dict
  /-- Handles on which `connection.close()` completed. -/
  closedHandles : List Nat
  /-- Handler invocations `(handler id, parsed message)`, oldest first. -/
  handlerLog : List (Nat × Json)

/-- `await self.connection.send(json.dumps(message))` (line 107): one send
attempt; on success the message is written, on failure the call raises
(reported as `false` to the embedded `try`). -/
def connectionSend (env : Env) (w : World) (message : Dict) : World × Bool :=
  if env.sendOk w.sendAttempts then
    ({ w with sendAttempts := w.sendAttempts + 1,
              sentLog := w.sentLog ++ [message] }, true)
  else
    ({ w with sendAttempts := w.sendAttempts + 1 }, false)

/-- `send_message(self, message)` (lines 88–113).  Returns the world, the
message dict as the caller observes it after the call (the source mutates
the caller's dict in place), and the boolean result.

Source shape: fail fast when not connected; otherwise add `id` and
`timestamp` when absent, serialize and send; any exception in the `try`
block is caught and converted to `False`.  Note the `logger.debug`
f-string on line 108 evaluates `message['type']` eagerly, so a message
without a `"type"` key makes the method return `False` even after a
successful write; that path is modelled faithfully. -/
def send_message (env : Env) (w : World) (message : Dict) :
    World × Dict × Bool :=
  if !w.client.is_connected || !w.client.connection.isSome then
    (w, message, false)
  else
    let (message, w) :=
      if hasKey message "id" then (message, w)
      else (setKey message "id" (.str (env.uuid w.uuidCtr)),
            { w with uuidCtr := w.uuidCtr + 1 })
    let (message, w) :=
      if hasKey message "timestamp" then (message, w)
      else (setKey message "timestamp" (.str (env.now w.clock)),
            { w with clock := w.clock + 1 })
    let (w, ok) := connectionSend env w message
    if ok && !hasKey message "type" then
      (w, message, false)
    else
      (w, message, ok)

/-- The handshake dict literal of `connect` (lines 55–60). -/
def connectEnvelope (c : Client) (now : String) : Dict :=
  [("type", .str "agent_connect"),
   ("agent_id", .str c.agent_id),
   ("agent_type", .str c.agent_type),
   ("timestamp", .str now)]

/-- `connect(self)` (lines 39–67).  On transport success: store the handle,
set `is_connected`, send the `agent_connect` handshake through
`send_message` (whose own failures are swallowed there), return `True`.
On a transport raise: caught, `is_connected = False`, return `False`
(`self.connection` is not reassigned). -/
def connect (env : Env) (w : World) : World × Bool :=
  if env.connectOk then
    let w := { w with client :=
      { w.client with connection := some env.newHandle, is_connected := true } }
    let handshake : Dict := connectEnvelope w.client (env.now w.clock)
    let w := { w with clock := w.clock + 1 }
    let (w, _, _) := send_message env w handshake
    (w, true)
  else
    ({ w with client := { w.client with is_connected := false } }, false)

/-- The farewell dict literal of `disconnect` (lines 74–78): `type`,
`agent_id`, `timestamp` — no `agent_type`. -/
def disconnectEnvelope (c : Client) (now : String) : Dict :=
  [("type", .str "agent_disconnect"),
   ("agent_id", .str c.agent_id),
   ("timestamp", .str now)]

/-- `disconnect(self)` (lines 69–86).  Guard `if self.connection and
self.is_connected`; inside the `try`, send the `agent_disconnect` message
(via `send_message`, which swallows its own failures) then close the
transport (a raise here is caught and logged); in every run that enters
the guard, `is_connected` is cleared and `connection` set to `None`. -/
def disconnect (env : Env) (w : World) : World :=
  if w.client.connection.isSome && w.client.is_connected then
    let msg : Dict := disconnectEnvelope w.client (env.now w.clock)
    let w := { w with clock := w.clock + 1 }
    let (w, _, _) := send_message env w msg
    let w :=
      match w.client.connection with
      | some h =>
          if env.closeOk then { w with closedHandles := w.closedHandles ++ [h] }
          else w
      | none => w
    { w with client := { w.client with is_connected := false, connection := none } }
  else
    w

/-- The envelope built by `send_observation` (lines 115–131): the dict
literal evaluated with the current attribute values and one
`datetime.now()` reading. -/
def observationEnvelope (c : Client) (now : String) (observation : Json) : Dict :=
  [("type", .str "agent_observation"),
   ("agent_id", .str c.agent_id),
   ("agent_type", .str c.agent_type),
   ("observation", observation),
   ("timestamp", .str now)]

/-- `send_observation(self, observation)` (lines 115–131): build the typed
envelope, delegate to `send_message` and return its result. -/
def send_observation (env : Env) (w : World) (observation : Json) :
    World × Bool :=
  let message := observationEnvelope w.client (env.now w.clock) observation
  let w := { w with clock := w.clock + 1 }
  let (w, _, ok) := send_message env w message
  (w, ok)

/-- The envelope built by `send_exploration_result` (lines 133–147). -/
def explorationEnvelope (c : Client) (now : String) (result : Json) : Dict :=
  [("type", .str "exploration_result"),
   ("agent_id", .str c.agent_id),
   ("agent_type", .str c.agent_type),
   ("result", result),
   ("timestamp", .str now)]

/-- `send_exploration_result(self, result)` (lines 133–147). -/
def send_exploration_result (env : Env) (w : World) (result : Json) :
    World × Bool :=
  let message := explorationEnvelope w.client (env.now w.clock) result
  let w := { w with clock := w.clock + 1 }
  let (w, _, ok) := send_message env w message
  (w, ok)

/-- The envelope built by `send_heartbeat` (lines 149–157): note the source
dict literal has only `type`, `agent_id` and `timestamp` — no
`agent_type` key. -/
def heartbeatEnvelope (c : Client) (now : String) : Dict :=
  [("type", .str "heartbeat"),
   ("agent_id", .str c.agent_id),
   ("timestamp", .str now)]

/-- `send_heartbeat(self)` (lines 149–157). -/
def send_heartbeat (env : Env) (w : World) : World × Bool :=
  let message := heartbeatEnvelope w.client (env.now w.clock)
  let w := { w with clock := w.clock + 1 }
  let (w, _, ok) := send_message env w message
  (w, ok)

/-- `register_message_handler(self, message_type, handler)` (lines
159–168): Python dict assignment into `self.message_handlers`. -/
def register_message_handler (w : World) (message_type : String)
    (handler : Nat) : World :=
  { w with client := { w.client with
      message_handlers := setKey w.client.message_handlers message_type handler } }

/-- One iteration of the `async for` body in `receive_messages` (lines
185–198).  `json.loads` failure (`none`) is the `JSONDecodeError` branch:
log and continue.  On a parsed object, `data.get("type")` is looked up in
`self.message_handlers`; a registered handler is awaited with the parsed
message (recorded in `handlerLog`), otherwise only a warning is logged.
A parsed non-object makes `data.get` raise `AttributeError`, caught by the
generic `except Exception` — also log and continue.  A non-string `type`
value is never a key of the registry, so it takes the warning branch. -/
def processInbound (env : Env) (w : World) (raw : String) : World :=
  match env.jsonLoads raw with
  | none => w
  | some data =>
    match data with
    | .obj fields =>
      match get? fields "type" with
      | some (.str t) =>
        match get? w.client.message_handlers t with
        | some h => { w with handlerLog := w.handlerLog ++ [(h, data)] }
        | none => w
      | _ => w
    | _ => w

/-- How the inbound stream of `async for message in self.connection`
terminates. -/
inductive StreamEnd where
  | /-- The iterator ends normally (no exception). -/
    normal
  | /-- `websockets.exceptions.ConnectionClosed` is raised (lines 199–201). -/
    connectionClosed
  | /-- Any other exception is raised (lines 202–204). -/
    otherError

/-- `receive_messages(self)` (lines 170–204): return immediately when not
connected; otherwise process each inbound item in order, then on
`ConnectionClosed` or any other exception clear only `is_connected`
(`self.connection` is left as is); a normal end of the stream changes
nothing. -/
def receive_messages (env : Env) (w : World) (stream : List String)
    (ending : StreamEnd) : World :=
  if !w.client.is_connected || !w.client.connection.isSome then
    w
  else
    let w := stream.foldl (processInbound env) w
    match ending with
    | .normal => w
    | .connectionClosed =>
        { w with client := { w.client with is_connected := false } }
    | .otherError =>
        { w with client := { w.client with is_connected := false } }

/-- Does a message dict carry `"type": t`? (Used to count messages of a
given type tag in the transport log.) -/
def isType (m : Dict) (t : String) : Bool :=
  match get? m "type" with
  | some (.str s) => s == t
  | _ => false

/-- Number of messages with type tag `t` in a transport log. -/
def countType (log : List Dict) (t : String) : Nat :=
  (log.filter (fun m => isType m t)).length

/-- Per-item dispatch as the specification states it (used only in theorem
statements, to be compared with the embedded loop body `processInbound`):
an inbound item that parses to a JSON object whose `type` field is a
registered key yields exactly one invocation of that handler with the
parsed message; any other item yields none. -/
def dispatchSpec (env : Env) (handlers : List (String × Nat))
    (raw : String) : List (Nat × Json) :=
  match env.jsonLoads raw with
  | some (Json.obj fields) =>
    match get? fields "type" with
    | some (Json.str t) =>
      match get? handlers t with
      | some h => [(h, Json.obj fields)]
      | none => []
    | _ => []
  | _ => []

/-! ### Concrete fixtures used by witnesses and counterexamples -/

/-- Fresh-token supply used as the `uuid.uuid4()` oracle in concrete runs:
token `n` is the string of `n` copies of `u` (evidently injective). -/
def uuidTok (n : Nat) : String := String.mk (List.replicate n 'u')

/-- Clock-reading supply used as the `datetime.now().isoformat()` oracle
in concrete runs. -/
def stampTok (n : Nat) : String := String.mk (List.replicate n 'T')

/-- The client of the example block at the bottom of the source file. -/
def client0 : Client :=
  Client.init "ws://localhost:3002/api/v1/ws" "mcp_agent_example_001"
    "tech_enthusiast_1" "tech_enthusiast"

/-- A freshly constructed client: no effects have happened yet. -/
def w0 : World :=
  { client := client0, uuidCtr := 0, clock := 0, sendAttempts := 0,
    sentLog := [], closedHandles := [], handlerLog := [] }

/-- An environment where every transport operation succeeds and nothing
inbound parses. -/
def envAllOk : Env :=
  { connectOk := true, newHandle := 1, sendOk := fun _ => true,
    closeOk := true, uuid := uuidTok, now := stampTok,
    jsonLoads := fun _ => none }

/-- Like `envAllOk` but every `connection.send` raises. -/
def envSendFail : Env := { envAllOk with sendOk := fun _ => false }

/-- Like `envAllOk` but `websockets.connect` raises. -/
def envConnFail : Env := { envAllOk with connectOk := false }

/-- The world after a fully successful `connect()` on a fresh client:
connected, handle `1`, handshake in the log. -/
def wConn : World := (connect envAllOk w0).1

/-- An environment with an inbound side: `"good"` parses to a `command`
message, `"unreg"` parses to a message of an unregistered type, anything
else fails to parse. -/
def envRecv : Env :=
  { envAllOk with jsonLoads := fun s =>
      (if s == "good" then
        some (Json.obj [("type", Json.str "command"), ("n", Json.num 1)])
      else if s == "unreg" then
        some (Json.obj [("type", Json.str "other")])
      else none) }

/-- The connected client `wConn` with a handler (id `5`) registered for
type `command`. -/
def wRecv : World := register_message_handler wConn "command" 5

/-! ### Association-list lemmas -/

theorem hasKey_append (d₁ d₂ : List (String × α)) (k : String) :
    hasKey (d₁ ++ d₂) k = (hasKey d₁ k || hasKey d₂ k) := by
  simp [hasKey]

theorem hasKey_single (k k' : String) (v : α) :
    hasKey [(k, v)] k' = (k == k') := by
  simp [hasKey]

theorem get?_append_self (d : List (String × α)) (k : String) (v : α)
    (h : hasKey d k = false) : get? (d ++ [(k, v)]) k = some v := by
  induction d with
  | nil => simp [get?, List.find?]
  | cons p d ih =>
      have h1 : (p.1 == k) = false := by
        by_contra hne
        simp [hasKey] at h
        simp at hne
        exact absurd hne h.1
      have h2 : hasKey d k = false := by
        simp [hasKey] at h ⊢
        exact h.2
      simp [get?, List.find?, h1] at ih ⊢
      exact ih h2

theorem get?_append_ne (d : List (String × α)) (k k' : String) (v : α)
    (h : (k == k') = false) : get? (d ++ [(k, v)]) k' = get? d k' := by
  induction d with
  | nil => simp [get?, List.find?, h]
  | cons p d ih =>
      cases hp : (p.1 == k') with
      | true => simp [get?, List.find?, hp]
      | false => simp [get?, List.find?, hp] at ih ⊢; exact ih

theorem setKey_eq_append (d : List (String × α)) (k : String) (v : α)
    (h : hasKey d k = false) : setKey d k v = d ++ [(k, v)] := by
  simp [setKey, h]

/-! ### Characterizations of `send_message` -/

/-- `send_message` on a connected client, for a message that has a
`timestamp` but no `id` (the shape of every envelope the class itself
builds): one fresh uuid is drawn and appended, one send is attempted, and
the message reaches the log exactly when the oracle lets the write
succeed.  The returned boolean also accounts for the `KeyError` raised by
the `logger.debug` f-string when the message has no `"type"` key. -/
theorem send_message_spec_ts (env : Env) (w : World) (message : Dict)
    (hc : w.client.is_connected = true)
    (hconn : w.client.connection.isSome = true)
    (hid : hasKey message "id" = false)
    (hts : hasKey message "timestamp" = true) :
    send_message env w message =
      ({ w with uuidCtr := w.uuidCtr + 1,
                sendAttempts := w.sendAttempts + 1,
                sentLog :=
                  if env.sendOk w.sendAttempts then
                    w.sentLog ++ [message ++ [("id", Json.str (env.uuid w.uuidCtr))]]
                  else w.sentLog },
       message ++ [("id", Json.str (env.uuid w.uuidCtr))],
       env.sendOk w.sendAttempts && hasKey message "type") := by
  have hts' : hasKey (message ++ [("id", Json.str (env.uuid w.uuidCtr))])
      "timestamp" = true := by
    rw [hasKey_append, hts]; rfl
  have hty : hasKey (message ++ [("id", Json.str (env.uuid w.uuidCtr))])
      "type" = hasKey message "type" := by
    rw [hasKey_append, hasKey_single]
    simp
  unfold send_message connectionSend
  rw [hc, hconn]
  simp only [Bool.not_true, Bool.or_self, Bool.false_or, if_false, hid,
    Bool.false_eq_true, setKey_eq_append message "id" _ hid, hts']
  cases hok : env.sendOk w.sendAttempts with
  | true =>
      cases hmty : hasKey message "type" with
      | true => simp [hok, hty, hmty]
      | false => simp [hok, hty, hmty]
  | false => simp [hok, hty]

/-- `send_message` on a connected client, for a message that has neither an
`id` nor a `timestamp` key: both are appended (id first), one send is
attempted, and the augmented message reaches the log exactly when the
write succeeds. -/
theorem send_message_spec_fresh (env : Env) (w : World) (message : Dict)
    (hc : w.client.is_connected = true)
    (hconn : w.client.connection.isSome = true)
    (hid : hasKey message "id" = false)
    (hts : hasKey message "timestamp" = false) :
    send_message env w message =
      ({ w with uuidCtr := w.uuidCtr + 1, clock := w.clock + 1,
                sendAttempts := w.sendAttempts + 1,
                sentLog :=
                  if env.sendOk w.sendAttempts then
                    w.sentLog ++
                      [message ++ [("id", Json.str (env.uuid w.uuidCtr)),
                                   ("timestamp", Json.str (env.now w.clock))]]
                  else w.sentLog },
       message ++ [("id", Json.str (env.uuid w.uuidCtr)),
                   ("timestamp", Json.str (env.now w.clock))],
       env.sendOk w.sendAttempts && hasKey message "type") := by
  have hts1 : hasKey (message ++ [("id", Json.str (env.uuid w.uuidCtr))])
      "timestamp" = false := by
    rw [hasKey_append, hts, hasKey_single]; rfl
  have happ : (message ++ [("id", Json.str (env.uuid w.uuidCtr))]) ++
        [("timestamp", Json.str (env.now w.clock))] =
      message ++ [("id", Json.str (env.uuid w.uuidCtr)),
                  ("timestamp", Json.str (env.now w.clock))] := by
    simp
  have hty : hasKey (message ++ [("id", Json.str (env.uuid w.uuidCtr)),
        ("timestamp", Json.str (env.now w.clock))]) "type" =
      hasKey message "type" := by
    rw [hasKey_append]
    simp [hasKey]
  unfold send_message connectionSend
  rw [hc, hconn]
  simp only [Bool.not_true, Bool.or_self, Bool.false_or, if_false, hid,
    Bool.false_eq_true, setKey_eq_append message "id" _ hid, hts1,
    setKey_eq_append _ "timestamp" _ hts1, happ]
  cases hok : env.sendOk w.sendAttempts with
  | true =>
      cases hmty : hasKey message "type" with
      | true => simp [hok, hty, hmty]
      | false => simp [hok, hty, hmty]
  | false => simp [hok, hty]

/-- `send_message` on a connected client, for a message that has an `id`
but no `timestamp`: only the timestamp is appended (one clock reading, no
uuid draw), one send is attempted. -/
theorem send_message_spec_id (env : Env) (w : World) (message : Dict)
    (hc : w.client.is_connected = true)
    (hconn : w.client.connection.isSome = true)
    (hid : hasKey message "id" = true)
    (hts : hasKey message "timestamp" = false) :
    send_message env w message =
      ({ w with clock := w.clock + 1,
                sendAttempts := w.sendAttempts + 1,
                sentLog :=
                  if env.sendOk w.sendAttempts then
                    w.sentLog ++
                      [message ++ [("timestamp", Json.str (env.now w.clock))]]
                  else w.sentLog },
       message ++ [("timestamp", Json.str (env.now w.clock))],
       env.sendOk w.sendAttempts && hasKey message "type") := by
  have hty : hasKey (message ++ [("timestamp", Json.str (env.now w.clock))])
      "type" = hasKey message "type" := by
    rw [hasKey_append, hasKey_single]
    simp
  unfold send_message connectionSend
  rw [hc, hconn]
  cases hok : env.sendOk w.sendAttempts with
  | true =>
      cases hmty : hasKey message "type" with
      | true =>
          simp [hid, hts, setKey_eq_append message "timestamp" _ hts,
            hok, hty, hmty]
      | false =>
          simp [hid, hts, setKey_eq_append message "timestamp" _ hts,
            hok, hty, hmty]
  | false =>
      simp [hid, hts, setKey_eq_append message "timestamp" _ hts, hok, hty]

/-- `send_message` on a connected client, for a message that already has
both `id` and `timestamp`: the dict is sent as is. -/
theorem send_message_spec_both (env : Env) (w : World) (message : Dict)
    (hc : w.client.is_connected = true)
    (hconn : w.client.connection.isSome = true)
    (hid : hasKey message "id" = true)
    (hts : hasKey message "timestamp" = true) :
    send_message env w message =
      ({ w with sendAttempts := w.sendAttempts + 1,
                sentLog :=
                  if env.sendOk w.sendAttempts then w.sentLog ++ [message]
                  else w.sentLog },
       message,
       env.sendOk w.sendAttempts && hasKey message "type") := by
  unfold send_message connectionSend
  rw [hc, hconn]
  cases hok : env.sendOk w.sendAttempts with
  | true =>
      cases hmty : hasKey message "type" with
      | true => simp [hid, hts, hok, hmty]
      | false => simp [hid, hts, hok, hmty]
  | false => simp [hid, hts, hok]

/-- On a connected client, whatever the key shape of the dict, exactly one
write is attempted and the message appended to the transport log — when
the write succeeds — is exactly the (possibly augmented) dict the caller
ends up holding. -/
theorem send_message_connected_log (env : Env) (w : World) (message : Dict)
    (hc : w.client.is_connected = true)
    (hconn : w.client.connection.isSome = true) :
    (send_message env w message).1.sentLog =
      (if env.sendOk w.sendAttempts then
        w.sentLog ++ [(send_message env w message).2.1]
      else w.sentLog) := by
  cases hid : hasKey message "id" with
  | false =>
      cases hts : hasKey message "timestamp" with
      | false => rw [send_message_spec_fresh env w message hc hconn hid hts]
      | true => rw [send_message_spec_ts env w message hc hconn hid hts]
  | true =>
      cases hts : hasKey message "timestamp" with
      | false => rw [send_message_spec_id env w message hc hconn hid hts]
      | true => rw [send_message_spec_both env w message hc hconn hid hts]

/-- `send_message` on a client that is not connected (`is_connected`
false): the guard at lines 95–97 returns `False` at once — no write, no
mutation of the message, no state change. -/
theorem send_message_not_connected (env : Env) (w : World) (message : Dict)
    (hc : w.client.is_connected = false) :
    send_message env w message = (w, message, false) := by
  unfold send_message
  rw [hc]
  rfl

/-- `disconnect` on a client whose `is_connected` flag is false skips the
whole guarded block (lines 70–71): nothing is sent, nothing is closed, and
no attribute changes — whatever `self.connection` holds. -/
theorem disconnect_not_connected (env : Env) (w : World)
    (hc : w.client.is_connected = false) : disconnect env w = w := by
  unfold disconnect
  rw [hc]
  simp

/-! ### Frame lemmas for the receive loop -/

theorem processInbound_client (env : Env) (w : World) (raw : String) :
    (processInbound env w raw).client = w.client := by
  unfold processInbound
  repeat' split
  all_goals rfl

theorem processInbound_sentLog (env : Env) (w : World) (raw : String) :
    (processInbound env w raw).sentLog = w.sentLog := by
  unfold processInbound
  repeat' split
  all_goals rfl

theorem processInbound_closedHandles (env : Env) (w : World) (raw : String) :
    (processInbound env w raw).closedHandles = w.closedHandles := by
  unfold processInbound
  repeat' split
  all_goals rfl

theorem foldl_processInbound_client (env : Env) (stream : List String)
    (w : World) :
    (stream.foldl (processInbound env) w).client = w.client := by
  induction stream generalizing w with
  | nil => rfl
  | cons raw rest ih =>
      rw [List.foldl_cons, ih, processInbound_client]

/-- `receive_messages` terminated by `ConnectionClosed` clears only
`is_connected`; every other client attribute — in particular the
`connection` handle — is untouched. -/
theorem receive_messages_closed_client (env : Env) (w : World)
    (stream : List String)
    (hc : w.client.is_connected = true)
    (hs : w.client.connection.isSome = true) :
    (receive_messages env w stream StreamEnd.connectionClosed).client =
      { w.client with is_connected := false } := by
  unfold receive_messages
  rw [hc, hs]
  simp [foldl_processInbound_client]

theorem uuidTok_injective : Function.Injective uuidTok := by
  intro a b h
  have := congrArg (fun s : String => s.data.length) h
  simpa [uuidTok] using this

/-- Reading back the generated `id` field of a freshly augmented message. -/
theorem get?_id_of_fresh (m : Dict) (u t : Json)
    (hid : hasKey m "id" = false) :
    get? (m ++ [("id", u), ("timestamp", t)]) "id" = some u := by
  have e : m ++ [("id", u), ("timestamp", t)] =
      (m ++ [("id", u)]) ++ [("timestamp", t)] := by simp
  rw [e, get?_append_ne (m ++ [("id", u)]) "timestamp" "id" t rfl,
    get?_append_self _ _ _ hid]

/-- Reading back the generated `timestamp` field of a freshly augmented
message. -/
theorem get?_timestamp_of_fresh (m : Dict) (u t : Json)
    (hts : hasKey m "timestamp" = false) :
    get? (m ++ [("id", u), ("timestamp", t)]) "timestamp" = some t := by
  have e : m ++ [("id", u), ("timestamp", t)] =
      (m ++ [("id", u)]) ++ [("timestamp", t)] := by simp
  have h1 : hasKey (m ++ [("id", u)]) "timestamp" = false := by
    rw [hasKey_append, hts]
    rfl
  rw [e, get?_append_self _ _ _ h1]

theorem hasKey_id_of_fresh (m : Dict) (u t : Json) :
    hasKey (m ++ [("id", u), ("timestamp", t)]) "id" = true := by
  rw [hasKey_append]
  rw [show hasKey ([("id", u), ("timestamp", t)] : Dict) "id" = true from rfl]
  exact Bool.or_true _

theorem hasKey_timestamp_of_fresh (m : Dict) (u t : Json) :
    hasKey (m ++ [("id", u), ("timestamp", t)]) "timestamp" = true := by
  rw [hasKey_append]
  rw [show hasKey ([("id", u), ("timestamp", t)] : Dict) "timestamp" = true
    from rfl]
  exact Bool.or_true _

/-- When the dict lacks an `id` key, the caller-visible dict after the
call carries the freshly drawn uuid at the current counter, the counter
advances by one, and the client attributes are untouched — whether or not
a `timestamp` was present. -/
theorem send_message_generated_id (env : Env) (w : World) (message : Dict)
    (hc : w.client.is_connected = true)
    (hconn : w.client.connection.isSome = true)
    (hid : hasKey message "id" = false) :
    get? (send_message env w message).2.1 "id" =
      some (Json.str (env.uuid w.uuidCtr)) ∧
    (send_message env w message).1.uuidCtr = w.uuidCtr + 1 ∧
    (send_message env w message).1.client = w.client := by
  cases hts : hasKey message "timestamp" with
  | false =>
      rw [send_message_spec_fresh env w message hc hconn hid hts]
      exact ⟨get?_id_of_fresh message _ _ hid, rfl, rfl⟩
  | true =>
      rw [send_message_spec_ts env w message hc hconn hid hts]
      exact ⟨get?_append_self message "id" _ hid, rfl, rfl⟩

/-- Projection form of `send_message_spec_fresh`, keeping the result world
opaque so successive calls compose. -/
theorem send_message_fresh_parts (env : Env) (w : World) (message : Dict)
    (hc : w.client.is_connected = true)
    (hs : w.client.connection.isSome = true)
    (hid : hasKey message "id" = false)
    (hts : hasKey message "timestamp" = false) :
    (send_message env w message).2.1 =
      message ++ [("id", Json.str (env.uuid w.uuidCtr)),
                  ("timestamp", Json.str (env.now w.clock))] ∧
    (send_message env w message).1.client = w.client ∧
    (send_message env w message).1.uuidCtr = w.uuidCtr + 1 ∧
    (send_message env w message).1.sendAttempts = w.sendAttempts + 1 ∧
    (send_message env w message).1.sentLog =
      (if env.sendOk w.sendAttempts then
        w.sentLog ++ [(send_message env w message).2.1]
      else w.sentLog) := by
  rw [send_message_spec_fresh env w message hc hs hid hts]
  exact ⟨rfl, rfl, rfl, rfl, rfl⟩

theorem processInbound_handlerLog (env : Env) (w : World) (raw : String) :
    (processInbound env w raw).handlerLog =
      w.handlerLog ++ dispatchSpec env w.client.message_handlers raw := by
  unfold processInbound dispatchSpec
  cases hj : env.jsonLoads raw with
  | none => simp
  | some data =>
      cases data with
      | null => simp
      | bool b => simp
      | num n => simp
      | str s => simp
      | arr xs => simp
      | obj fields =>
          cases ht : get? fields "type" with
          | none => simp [ht]
          | some tv =>
              cases tv with
              | null => simp [ht]
              | bool b => simp [ht]
              | num n => simp [ht]
              | str t =>
                  cases hh : get? w.client.message_handlers t with
                  | none => simp [ht, hh]
                  | some h => simp [ht, hh]
              | arr xs => simp [ht]
              | obj fs => simp [ht]

theorem foldl_processInbound_handlerLog (env : Env) (stream : List String)
    (w : World) :
    (stream.foldl (processInbound env) w).handlerLog =
      w.handlerLog ++
        (stream.map (dispatchSpec env w.client.message_handlers)).flatten := by
  induction stream generalizing w with
  | nil => simp
  | cons raw rest ih =>
      rw [List.foldl_cons, ih, processInbound_handlerLog,
        processInbound_client]
      simp [List.append_assoc]

/-- `connect` returns exactly the transport-connect outcome (the handshake
send result is discarded at line 62). -/
theorem connect_result (env : Env) (w : World) :
    (connect env w).2 = env.connectOk := by
  cases hcon : env.connectOk with
  | true => simp [connect, hcon]
  | false => simp [connect, hcon]

/-! ### Claims -/

/-- C7: for every message and every client whose state is disconnected,
`send_message(message)` returns `false`, performs no transport write and
changes nothing (the returned world, and in particular `sentLog`, is the
input world), and raises no exception (the embedding is a total function;
the guard at lines 95–97 returns before any raising primitive runs). -/
theorem send_message_disconnected_noop (env : Env) (w : World)
    (message : Dict) (hc : w.client.is_connected = false) :
    send_message env w message = (w, message, false) :=
  send_message_not_connected env w message hc

/-- Witness for C7 at a concrete disconnected client. -/
theorem send_message_disconnected_noop_witness :
    w0.client.is_connected = false ∧
    send_message envAllOk w0 [("type", Json.str "test")] =
      (w0, [("type", Json.str "test")], false) :=
  ⟨rfl, send_message_disconnected_noop envAllOk w0 [("type", Json.str "test")] rfl⟩

/-- C3 as stated is false: when the transport connect raises, `connect()`
leaves `self.connection` *unchanged* rather than `None`.  Concretely:
connect a fresh client (handle `1`), let `receive_messages` observe
`ConnectionClosed` (which clears only `is_connected`), then call
`connect()` with the transport raising — it returns `false` yet the stale
handle `1` is still present. -/
theorem connect_failure_keeps_stale_handle :
    (connect envConnFail
      (receive_messages envAllOk (connect envAllOk w0).1 []
        StreamEnd.connectionClosed)).2 = false ∧
    (connect envConnFail
      (receive_messages envAllOk (connect envAllOk w0).1 []
        StreamEnd.connectionClosed)).1.client.is_connected = false ∧
    (connect envConnFail
      (receive_messages envAllOk (connect envAllOk w0).1 []
        StreamEnd.connectionClosed)).1.client.connection ≠ none := by
  refine ⟨rfl, rfl, ?_⟩
  intro h
  exact Option.noConfusion h

/-- C3 amended: whenever the transport-level connection attempt inside
`connect()` throws, `connect()` returns `false`, raises nothing to the
caller (total function), leaves the state disconnected, writes nothing,
and leaves the connection handle *unchanged* — hence still `None` for a
client that has never connected, but not in general. -/
theorem connect_failure_spec (env : Env) (w : World)
    (h : env.connectOk = false) :
    (connect env w).2 = false ∧
    (connect env w).1.client.is_connected = false ∧
    (connect env w).1.client.connection = w.client.connection ∧
    (connect env w).1.sentLog = w.sentLog := by
  unfold connect
  rw [h]
  exact ⟨rfl, rfl, rfl, rfl⟩

/-- Witness for the amended C3 on a fresh client: the handle stays `None`. -/
theorem connect_failure_spec_witness :
    envConnFail.connectOk = false ∧
    ((connect envConnFail w0).2 = false ∧
     (connect envConnFail w0).1.client.is_connected = false ∧
     (connect envConnFail w0).1.client.connection = w0.client.connection ∧
     (connect envConnFail w0).1.sentLog = w0.sentLog) :=
  ⟨rfl, connect_failure_spec envConnFail w0 rfl⟩

/-- C8: an inbound transport item that is not valid JSON (the `json.loads`
oracle raises) invokes no handler, raises nothing, changes no client
state — `processInbound` is the identity on it — and the loop continues
with the next inbound item. -/
theorem receive_skips_invalid_json (env : Env) (w : World) (raw : String)
    (rest : List String) (ending : StreamEnd)
    (hbad : env.jsonLoads raw = none) :
    processInbound env w raw = w ∧
    receive_messages env w (raw :: rest) ending =
      receive_messages env w rest ending := by
  have h1 : processInbound env w raw = w := by
    unfold processInbound
    rw [hbad]
  exact ⟨h1, by simp only [receive_messages, List.foldl_cons, h1]⟩

/-- Witness for C8: a garbage inbound item on a connected client with a
registered handler. -/
theorem receive_skips_invalid_json_witness :
    envRecv.jsonLoads "garbage" = none ∧
    (processInbound envRecv wRecv "garbage" = wRecv ∧
     receive_messages envRecv wRecv ["garbage", "good"] StreamEnd.normal =
       receive_messages envRecv wRecv ["good"] StreamEnd.normal) :=
  ⟨rfl, receive_skips_invalid_json envRecv wRecv "garbage" ["good"]
    StreamEnd.normal rfl⟩

/-- C9: `disconnect()` on a client whose `is_connected` flag is false is
the identity — the handle is left unchanged, nothing is written, nothing
is closed — including the scenario where a non-`None` handle remains
because `receive_messages` observed stream termination, which clears only
the flag; the stale handle is then never closed by the later
`disconnect()`. -/
theorem disconnect_noop_stale_handle (env env₂ : Env) (w wr : World)
    (stream : List String)
    (hflag : w.client.is_connected = false)
    (hrc : wr.client.is_connected = true)
    (hrs : wr.client.connection.isSome = true) :
    disconnect env w = w ∧
    (receive_messages env₂ wr stream
        StreamEnd.connectionClosed).client.connection =
      wr.client.connection ∧
    (receive_messages env₂ wr stream
        StreamEnd.connectionClosed).client.is_connected = false ∧
    disconnect env (receive_messages env₂ wr stream
        StreamEnd.connectionClosed) =
      receive_messages env₂ wr stream StreamEnd.connectionClosed := by
  have hcl := receive_messages_closed_client env₂ wr stream hrc hrs
  refine ⟨disconnect_not_connected env w hflag, ?_, ?_, ?_⟩
  · rw [hcl]
  · rw [hcl]
  · exact disconnect_not_connected env _ (by rw [hcl])

/-- C5: for every message dict passed to `send_message` on a connected
client, if the dict lacks an `id` key the dict that reaches the transport
contains an `id`, if it lacks a `timestamp` key it contains a `timestamp`
(each conditional independent of the other key's presence); the message
appended to the transport log on a successful write is exactly the
(possibly augmented) dict; and any two calls whose dicts lack an `id`
generate distinct `id` values (the `uuid.uuid4` fresh-token supply is
injective). -/
theorem send_message_fresh_id_timestamp (env : Env) (w : World)
    (message mA mB : Dict)
    (hinj : Function.Injective env.uuid)
    (hc : w.client.is_connected = true)
    (hs : w.client.connection.isSome = true) :
    (hasKey message "id" = false →
      hasKey (send_message env w message).2.1 "id" = true) ∧
    (hasKey message "timestamp" = false →
      hasKey (send_message env w message).2.1 "timestamp" = true) ∧
    (env.sendOk w.sendAttempts = true →
      (send_message env w message).1.sentLog =
        w.sentLog ++ [(send_message env w message).2.1]) ∧
    (hasKey mA "id" = false → hasKey mB "id" = false →
      get? (send_message env w mA).2.1 "id" ≠
        get? (send_message env (send_message env w mA).1 mB).2.1 "id") := by
  refine ⟨?_, ?_, ?_, ?_⟩
  · intro hid
    cases hts : hasKey message "timestamp" with
    | false =>
        rw [send_message_spec_fresh env w message hc hs hid hts]
        exact hasKey_id_of_fresh message _ _
    | true =>
        rw [send_message_spec_ts env w message hc hs hid hts]
        rw [hasKey_append, hasKey_single]
        simp
  · intro hts
    cases hid : hasKey message "id" with
    | false =>
        rw [send_message_spec_fresh env w message hc hs hid hts]
        exact hasKey_timestamp_of_fresh message _ _
    | true =>
        rw [send_message_spec_id env w message hc hs hid hts]
        rw [hasKey_append, hasKey_single]
        simp
  · intro hok
    rw [send_message_connected_log env w message hc hs, hok]
    simp
  · intro hAid hBid
    have gA := send_message_generated_id env w mA hc hs hAid
    have hc1 : (send_message env w mA).1.client.is_connected = true := by
      rw [gA.2.2]; exact hc
    have hs1 : (send_message env w mA).1.client.connection.isSome = true := by
      rw [gA.2.2]; exact hs
    have gB := send_message_generated_id env (send_message env w mA).1 mB
      hc1 hs1 hBid
    rw [gA.1, gB.1, gA.2.1]
    intro hcontra
    simp only [Option.some.injEq, Json.str.injEq] at hcontra
    have := hinj hcontra
    omega

/-- Witness for C5 on the connected fixture with the evidently injective
token supply `uuidTok`: the first two dicts lack only `id` (timestamp
present — the shape the class itself builds), the third lacks both; the
ids generated for the two id-less dicts differ. -/
theorem send_message_fresh_id_timestamp_witness :
    get? (send_message envAllOk wConn
        [("type", Json.str "a"), ("timestamp", Json.str "T")]).2.1 "id" ≠
      get? (send_message envAllOk
        (send_message envAllOk wConn
          [("type", Json.str "a"), ("timestamp", Json.str "T")]).1
        [("type", Json.str "b")]).2.1 "id" :=
  (send_message_fresh_id_timestamp envAllOk wConn
    [("type", Json.str "m"), ("timestamp", Json.str "T")]
    [("type", Json.str "a"), ("timestamp", Json.str "T")]
    [("type", Json.str "b")]
    uuidTok_injective rfl rfl).2.2.2 rfl rfl

/-- C10: `send_message` mutates the caller's dict in place (modelled by
returning the updated dict): for every dict lacking `id` and `timestamp`
sent on a connected client whose transport write succeeds, the dict the
caller holds after the call is exactly the transmitted message, and it
contains the generated `id` and `timestamp` values. -/
theorem send_message_updates_caller_dict (env : Env) (w : World)
    (message : Dict)
    (hc : w.client.is_connected = true)
    (hs : w.client.connection.isSome = true)
    (hid : hasKey message "id" = false)
    (hts : hasKey message "timestamp" = false)
    (hok : env.sendOk w.sendAttempts = true) :
    (send_message env w message).1.sentLog =
      w.sentLog ++ [(send_message env w message).2.1] ∧
    get? (send_message env w message).2.1 "id" =
      some (Json.str (env.uuid w.uuidCtr)) ∧
    get? (send_message env w message).2.1 "timestamp" =
      some (Json.str (env.now w.clock)) := by
  rw [send_message_spec_fresh env w message hc hs hid hts]
  exact ⟨by simp [hok],
    get?_id_of_fresh message _ _ hid,
    get?_timestamp_of_fresh message _ _ hts⟩

/-- Witness for C10 on the connected fixture. -/
theorem send_message_updates_caller_dict_witness :
    (send_message envAllOk wConn [("type", Json.str "obs")]).1.sentLog =
      wConn.sentLog ++
        [(send_message envAllOk wConn [("type", Json.str "obs")]).2.1] ∧
    get? (send_message envAllOk wConn [("type", Json.str "obs")]).2.1 "id" =
      some (Json.str (envAllOk.uuid wConn.uuidCtr)) ∧
    get? (send_message envAllOk wConn
        [("type", Json.str "obs")]).2.1 "timestamp" =
      some (Json.str (envAllOk.now wConn.clock)) :=
  send_message_updates_caller_dict envAllOk wConn [("type", Json.str "obs")]
    rfl rfl rfl rfl rfl

/-- Witness for C9: a fresh (never connected) client for the flag-false
part, and the connected fixture losing its stream for the scenario part. -/
theorem disconnect_noop_stale_handle_witness :
    w0.client.is_connected = false ∧
    wConn.client.is_connected = true ∧
    wConn.client.connection.isSome = true ∧
    (disconnect envSendFail w0 = w0 ∧
     (receive_messages envAllOk wConn ["x"]
         StreamEnd.connectionClosed).client.connection =
       wConn.client.connection ∧
     (receive_messages envAllOk wConn ["x"]
         StreamEnd.connectionClosed).client.is_connected = false ∧
     disconnect envSendFail (receive_messages envAllOk wConn ["x"]
         StreamEnd.connectionClosed) =
       receive_messages envAllOk wConn ["x"] StreamEnd.connectionClosed) :=
  ⟨rfl, rfl, rfl,
    disconnect_noop_stale_handle envSendFail envAllOk w0 wConn ["x"]
      rfl rfl rfl⟩

/-- C6: over a whole `receive_messages` run on a connected client, the
handler-invocation log grows by exactly the per-item dispatch of each
inbound item in order; an item parsing to a registered type invokes that
type's handler exactly once with the parsed message, and an item of an
unregistered type contributes no invocation while processing continues
with the next item. -/
theorem receive_messages_dispatch (env : Env) (w : World)
    (stream : List String) (ending : StreamEnd)
    (hc : w.client.is_connected = true)
    (hs : w.client.connection.isSome = true) :
    (receive_messages env w stream ending).handlerLog =
      w.handlerLog ++
        (stream.map (dispatchSpec env w.client.message_handlers)).flatten ∧
    (∀ raw fields t h, env.jsonLoads raw = some (Json.obj fields) →
        get? fields "type" = some (Json.str t) →
        get? w.client.message_handlers t = some h →
        dispatchSpec env w.client.message_handlers raw =
          [(h, Json.obj fields)]) ∧
    (∀ raw fields t, env.jsonLoads raw = some (Json.obj fields) →
        get? fields "type" = some (Json.str t) →
        get? w.client.message_handlers t = none →
        dispatchSpec env w.client.message_handlers raw = []) := by
  refine ⟨?_, ?_, ?_⟩
  · unfold receive_messages
    rw [hc, hs]
    cases ending with
    | normal => simp [foldl_processInbound_handlerLog]
    | connectionClosed => simp [foldl_processInbound_handlerLog]
    | otherError => simp [foldl_processInbound_handlerLog]
  · intro raw fields t h h1 h2 h3
    unfold dispatchSpec
    simp [h1, h2, h3]
  · intro raw fields t h1 h2 h3
    unfold dispatchSpec
    simp [h1, h2, h3]

/-- Witness for C6: a connected client with a handler for `command`
receiving one matching item, one item of unregistered type, and one
garbage item. -/
theorem receive_messages_dispatch_witness :
    (receive_messages envRecv wRecv ["good", "unreg", "junk"]
        StreamEnd.normal).handlerLog =
      wRecv.handlerLog ++
        ((["good", "unreg", "junk"].map
          (dispatchSpec envRecv wRecv.client.message_handlers)).flatten) :=
  (receive_messages_dispatch envRecv wRecv ["good", "unreg", "junk"]
    StreamEnd.normal rfl rfl).1

/-- C2 as stated is false: `connect()` ignores the result of the handshake
`send_message` (line 62), so when the transport write of the handshake
raises, `connect()` still returns `True` although no `agent_connect`
message — indeed no message at all — was written to the transport. -/
theorem connect_true_despite_handshake_failure :
    (connect envSendFail w0).2 = true ∧
    countType (connect envSendFail w0).1.sentLog "agent_connect" = 0 :=
  ⟨rfl, rfl⟩

/-- C2 amended: by the time a `connect()` that returned `true` finishes,
*at most* one `agent_connect` handshake has been written — exactly one
when the transport write succeeds, and none when it raises; any written
handshake carries the configured `agent_id` and `agent_type` (plus
timestamp and a generated id). -/
theorem connect_handshake_spec (env : Env) (w : World)
    (h : (connect env w).2 = true) :
    (connect env w).1.sentLog =
      w.sentLog ++
        (if env.sendOk w.sendAttempts then
          [connectEnvelope w.client (env.now w.clock) ++
            [("id", Json.str (env.uuid w.uuidCtr))]]
        else []) ∧
    isType (connectEnvelope w.client (env.now w.clock) ++
      [("id", Json.str (env.uuid w.uuidCtr))]) "agent_connect" = true ∧
    get? (connectEnvelope w.client (env.now w.clock) ++
      [("id", Json.str (env.uuid w.uuidCtr))]) "agent_id" =
      some (Json.str w.client.agent_id) ∧
    get? (connectEnvelope w.client (env.now w.clock) ++
      [("id", Json.str (env.uuid w.uuidCtr))]) "agent_type" =
      some (Json.str w.client.agent_type) ∧
    hasKey (connectEnvelope w.client (env.now w.clock) ++
      [("id", Json.str (env.uuid w.uuidCtr))]) "timestamp" = true := by
  have hok : env.connectOk = true := by
    rw [← connect_result env w]
    exact h
  refine ⟨?_, rfl, rfl, rfl, rfl⟩
  cases hsend : env.sendOk w.sendAttempts with
  | true =>
      simp [connect, send_message, connectionSend, connectEnvelope, setKey,
        hasKey, hok, hsend]
  | false =>
      simp [connect, send_message, connectionSend, connectEnvelope, setKey,
        hasKey, hok, hsend]

/-- Witness for the amended C2: a fully successful `connect()` writes the
handshake. -/
theorem connect_handshake_spec_witness :
    (connect envAllOk w0).2 = true ∧
    ((connect envAllOk w0).1.sentLog =
      w0.sentLog ++
        (if envAllOk.sendOk w0.sendAttempts then
          [connectEnvelope w0.client (envAllOk.now w0.clock) ++
            [("id", Json.str (envAllOk.uuid w0.uuidCtr))]]
        else [])) :=
  ⟨rfl, (connect_handshake_spec envAllOk w0 rfl).1⟩

/-- C4 as stated is false in the run where the transport write of the
farewell message raises: `send_message` swallows that failure (and
`disconnect` proceeds to close), so *zero* — not exactly one —
`agent_disconnect` messages are written by `disconnect()` on a connected
client. -/
theorem disconnect_write_failure_writes_nothing :
    wConn.client.is_connected = true ∧
    wConn.client.connection.isSome = true ∧
    countType (disconnect envSendFail wConn).sentLog "agent_disconnect" = 0 :=
  ⟨rfl, rfl, rfl⟩

/-- C4 amended: `disconnect()` on a connected client writes *at most* one
`agent_disconnect` message before closing — exactly one when the
transport write succeeds, none when it raises — the close is attempted
regardless, and in every run (including when closing throws, in which
case the handle is not recorded as closed) the state afterwards is
disconnected with the connection handle `None`. -/
theorem disconnect_connected_spec (env : Env) (w : World)
    (hc : w.client.is_connected = true)
    (hs : w.client.connection.isSome = true) :
    (disconnect env w).client.is_connected = false ∧
    (disconnect env w).client.connection = none ∧
    (disconnect env w).sentLog =
      w.sentLog ++
        (if env.sendOk w.sendAttempts then
          [disconnectEnvelope w.client (env.now w.clock) ++
            [("id", Json.str (env.uuid w.uuidCtr))]]
        else []) ∧
    isType (disconnectEnvelope w.client (env.now w.clock) ++
      [("id", Json.str (env.uuid w.uuidCtr))]) "agent_disconnect" = true ∧
    get? (disconnectEnvelope w.client (env.now w.clock) ++
      [("id", Json.str (env.uuid w.uuidCtr))]) "agent_id" =
      some (Json.str w.client.agent_id) ∧
    hasKey (disconnectEnvelope w.client (env.now w.clock) ++
      [("id", Json.str (env.uuid w.uuidCtr))]) "timestamp" = true ∧
    (disconnect env w).closedHandles =
      w.closedHandles ++
        (if env.closeOk then w.client.connection.toList else []) := by
  cases hcn : w.client.connection with
  | none =>
      rw [hcn] at hs
      exact absurd hs (by simp)
  | some hdl =>
      cases hsend : env.sendOk w.sendAttempts with
      | true =>
          cases hclose : env.closeOk with
          | true =>
              simp [disconnect, send_message, connectionSend,
                disconnectEnvelope, setKey, hasKey, get?, isType, hc, hcn,
                hsend, hclose]
          | false =>
              simp [disconnect, send_message, connectionSend,
                disconnectEnvelope, setKey, hasKey, get?, isType, hc, hcn,
                hsend, hclose]
      | false =>
          cases hclose : env.closeOk with
          | true =>
              simp [disconnect, send_message, connectionSend,
                disconnectEnvelope, setKey, hasKey, get?, isType, hc, hcn,
                hsend, hclose]
          | false =>
              simp [disconnect, send_message, connectionSend,
                disconnectEnvelope, setKey, hasKey, get?, isType, hc, hcn,
                hsend, hclose]

/-- Witness for the amended C4: a fully successful `disconnect()` on the
connected fixture. -/
theorem disconnect_connected_spec_witness :
    (disconnect envAllOk wConn).client.is_connected = false ∧
    (disconnect envAllOk wConn).client.connection = none ∧
    (disconnect envAllOk wConn).sentLog =
      wConn.sentLog ++
        (if envAllOk.sendOk wConn.sendAttempts then
          [disconnectEnvelope wConn.client (envAllOk.now wConn.clock) ++
            [("id", Json.str (envAllOk.uuid wConn.uuidCtr))]]
        else []) ∧
    isType (disconnectEnvelope wConn.client (envAllOk.now wConn.clock) ++
      [("id", Json.str (envAllOk.uuid wConn.uuidCtr))])
      "agent_disconnect" = true ∧
    get? (disconnectEnvelope wConn.client (envAllOk.now wConn.clock) ++
      [("id", Json.str (envAllOk.uuid wConn.uuidCtr))]) "agent_id" =
      some (Json.str wConn.client.agent_id) ∧
    hasKey (disconnectEnvelope wConn.client (envAllOk.now wConn.clock) ++
      [("id", Json.str (envAllOk.uuid wConn.uuidCtr))]) "timestamp" = true ∧
    (disconnect envAllOk wConn).closedHandles =
      wConn.closedHandles ++
        (if envAllOk.closeOk then wConn.client.connection.toList else []) :=
  disconnect_connected_spec envAllOk wConn rfl rfl

/-- C1 as stated is false for `send_heartbeat()`: the heartbeat dict
literal (lines 151–155) has no `agent_type` key, so the transmitted
heartbeat envelope does not contain the configured agent_type.  Concrete
run on a connected client: exactly one heartbeat is transmitted and it
has no `agent_type` field. -/
theorem heartbeat_lacks_agent_type :
    (send_heartbeat envAllOk wConn).2 = true ∧
    countType (send_heartbeat envAllOk wConn).1.sentLog "heartbeat" = 1 ∧
    ((send_heartbeat envAllOk wConn).1.sentLog.filter
        (fun m => isType m "heartbeat")).all
      (fun m => !hasKey m "agent_type") = true :=
  ⟨rfl, rfl, rfl⟩

/-- C1 amended: on a connected client each builder wraps its payload in
its typed envelope and returns the result of delegating to
`send_message`; the `agent_observation` and `exploration_result`
envelopes contain the configured agent_id, agent_type, the payload and a
timestamp, while the `heartbeat` envelope contains agent_id and timestamp
but *no* agent_type. -/
theorem builder_envelopes_spec (env : Env) (w : World) (obs res : Json)
    (hc : w.client.is_connected = true)
    (hs : w.client.connection.isSome = true) :
    ((send_observation env w obs).2 = env.sendOk w.sendAttempts ∧
     (env.sendOk w.sendAttempts = true →
       (send_observation env w obs).1.sentLog =
         w.sentLog ++ [observationEnvelope w.client (env.now w.clock) obs ++
           [("id", Json.str (env.uuid w.uuidCtr))]]) ∧
     isType (observationEnvelope w.client (env.now w.clock) obs ++
       [("id", Json.str (env.uuid w.uuidCtr))]) "agent_observation" = true ∧
     get? (observationEnvelope w.client (env.now w.clock) obs ++
       [("id", Json.str (env.uuid w.uuidCtr))]) "agent_id" =
       some (Json.str w.client.agent_id) ∧
     get? (observationEnvelope w.client (env.now w.clock) obs ++
       [("id", Json.str (env.uuid w.uuidCtr))]) "agent_type" =
       some (Json.str w.client.agent_type) ∧
     get? (observationEnvelope w.client (env.now w.clock) obs ++
       [("id", Json.str (env.uuid w.uuidCtr))]) "observation" = some obs ∧
     hasKey (observationEnvelope w.client (env.now w.clock) obs ++
       [("id", Json.str (env.uuid w.uuidCtr))]) "timestamp" = true) ∧
    ((send_exploration_result env w res).2 = env.sendOk w.sendAttempts ∧
     (env.sendOk w.sendAttempts = true →
       (send_exploration_result env w res).1.sentLog =
         w.sentLog ++ [explorationEnvelope w.client (env.now w.clock) res ++
           [("id", Json.str (env.uuid w.uuidCtr))]]) ∧
     isType (explorationEnvelope w.client (env.now w.clock) res ++
       [("id", Json.str (env.uuid w.uuidCtr))]) "exploration_result" = true ∧
     get? (explorationEnvelope w.client (env.now w.clock) res ++
       [("id", Json.str (env.uuid w.uuidCtr))]) "agent_id" =
       some (Json.str w.client.agent_id) ∧
     get? (explorationEnvelope w.client (env.now w.clock) res ++
       [("id", Json.str (env.uuid w.uuidCtr))]) "agent_type" =
       some (Json.str w.client.agent_type) ∧
     get? (explorationEnvelope w.client (env.now w.clock) res ++
       [("id", Json.str (env.uuid w.uuidCtr))]) "result" = some res ∧
     hasKey (explorationEnvelope w.client (env.now w.clock) res ++
       [("id", Json.str (env.uuid w.uuidCtr))]) "timestamp" = true) ∧
    ((send_heartbeat env w).2 = env.sendOk w.sendAttempts ∧
     (env.sendOk w.sendAttempts = true →
       (send_heartbeat env w).1.sentLog =
         w.sentLog ++ [heartbeatEnvelope w.client (env.now w.clock) ++
           [("id", Json.str (env.uuid w.uuidCtr))]]) ∧
     isType (heartbeatEnvelope w.client (env.now w.clock) ++
       [("id", Json.str (env.uuid w.uuidCtr))]) "heartbeat" = true ∧
     get? (heartbeatEnvelope w.client (env.now w.clock) ++
       [("id", Json.str (env.uuid w.uuidCtr))]) "agent_id" =
       some (Json.str w.client.agent_id) ∧
     hasKey (heartbeatEnvelope w.client (env.now w.clock) ++
       [("id", Json.str (env.uuid w.uuidCtr))]) "timestamp" = true ∧
     hasKey (heartbeatEnvelope w.client (env.now w.clock) ++
       [("id", Json.str (env.uuid w.uuidCtr))]) "agent_type" = false) := by
  refine ⟨?_, ?_, ?_⟩ <;>
  · cases hsend : env.sendOk w.sendAttempts with
    | true =>
        simp [send_observation, send_exploration_result, send_heartbeat,
          send_message, connectionSend, observationEnvelope,
          explorationEnvelope, heartbeatEnvelope, setKey, hasKey, get?,
          isType, hc, hs, hsend]
    | false =>
        simp [send_observation, send_exploration_result, send_heartbeat,
          send_message, connectionSend, observationEnvelope,
          explorationEnvelope, heartbeatEnvelope, setKey, hasKey, get?,
          isType, hc, hs, hsend]

/-- Witness for the amended C1: the heartbeat block on the connected
fixture — one heartbeat transmitted, no `agent_type` key in it. -/
theorem builder_envelopes_spec_witness :
    (send_heartbeat envAllOk wConn).2 =
      envAllOk.sendOk wConn.sendAttempts ∧
    (envAllOk.sendOk wConn.sendAttempts = true →
      (send_heartbeat envAllOk wConn).1.sentLog =
        wConn.sentLog ++ [heartbeatEnvelope wConn.client
          (envAllOk.now wConn.clock) ++
          [("id", Json.str (envAllOk.uuid wConn.uuidCtr))]]) ∧
    isType (heartbeatEnvelope wConn.client (envAllOk.now wConn.clock) ++
      [("id", Json.str (envAllOk.uuid wConn.uuidCtr))]) "heartbeat" = true ∧
    get? (heartbeatEnvelope wConn.client (envAllOk.now wConn.clock) ++
      [("id", Json.str (envAllOk.uuid wConn.uuidCtr))]) "agent_id" =
      some (Json.str wConn.client.agent_id) ∧
    hasKey (heartbeatEnvelope wConn.client (envAllOk.now wConn.clock) ++
      [("id", Json.str (envAllOk.uuid wConn.uuidCtr))]) "timestamp" = true ∧
    hasKey (heartbeatEnvelope wConn.client (envAllOk.now wConn.clock) ++
      [("id", Json.str (envAllOk.uuid wConn.uuidCtr))]) "agent_type" = false :=
  (builder_envelopes_spec envAllOk wConn (Json.str "o") (Json.str "r")
    rfl rfl).2.2

end WSClient
